import Mathlib

/-!
Shallow embedding of the ox_herd task-lifecycle core:
the run-history store (`ox_herd/core/ox_run_db.py`, Redis and Sqlite
backends), the task execution harness (`ox_herd/core/ox_tasks.py`) and
the scheduler (`ox_herd/core/scheduling.py`), together with theorems
checking the specification's claims about them.

Python dicts and the Redis key space are modelled as association lists
keyed by strings; current UTC time and the id-generation timestamp are
threaded as explicit string arguments; code paths that raise are
modelled with `Except`.
-/

namespace OxHerd

/-! ### Association-list store primitives -/

/-- Lookup of a key in an association list (first binding wins, as in a
Python dict or a Redis key space). -/
def alistGet? {α : Type} : List (String × α) → String → Option α
  | [], _ => none
  | (k', v') :: rest, k => if k' = k then some v' else alistGet? rest k

/-- Setting a key in an association list: update the first binding in
place if present, append otherwise (Python dict / Redis SET semantics,
insertion order preserved). -/
def alistSet {α : Type} : List (String × α) → String → α → List (String × α)
  | [], k, v => [(k, v)]
  | (k', v') :: rest, k, v =>
    if k' = k then (k, v) :: rest else (k', v') :: alistSet rest k v

/-- Removing a key from an association list (Redis DEL semantics:
removing an absent key is a no-op). -/
def alistDel {α : Type} (l : List (String × α)) (k : String) : List (String × α) :=
  l.filter (fun p => p.1 ≠ k)

/-- Lexicographic `≤` on character lists, by code point, the shared
ordering of Python string comparison and SQLite text comparison. -/
def charListLe : List Char → List Char → Bool
  | [], _ => true
  | _ :: _, [] => false
  | a :: as, b :: bs =>
    if a < b then true else if a = b then charListLe as bs else false

/-- Lexicographic `≤` on strings. -/
def strLe (a b : String) : Bool := charListLe a.toList b.toList

/-- String prefix test (over the underlying character lists). -/
def strIsPrefixOf (p s : String) : Bool := p.toList.isPrefixOf s.toList

/-! ### Python values and dicts -/

/-- The Python values that appear in a run-record document: `None` or a
string. -/
inductive PyVal where
  | none
  | str (s : String)
  deriving DecidableEq, Repr

/-- A Python dict with string keys, as stored (via JSON) in Redis. -/
abbrev PyDict := List (String × PyVal)

/-- `ox_run_db.TaskInfo`: the in-memory record class.  The constructor
has four mandatory fields; the rest default to `None`. -/
structure TaskInfo where
  task_id : PyVal
  task_name : PyVal
  task_start_utc : PyVal
  task_status : PyVal
  task_end_utc : PyVal
  return_value : PyVal
  json_data : PyVal
  pickle_data : PyVal
  template : PyVal
  deriving DecidableEq, Repr

/-- `TaskInfo(**d)`: building a `TaskInfo` from a kwargs dict.  The four
positional parameters (`task_id`, `task_name`, `task_start_utc`,
`task_status`) have no defaults, so a dict missing any of them makes the
call raise `TypeError`; the remaining fields default to `None`. -/
def taskInfoFromKwargs (d : PyDict) : Except String TaskInfo :=
  match alistGet? d "task_id", alistGet? d "task_name",
        alistGet? d "task_start_utc", alistGet? d "task_status" with
  | some i, some n, some s, some st =>
    .ok { task_id := i, task_name := n, task_start_utc := s, task_status := st,
          task_end_utc := (alistGet? d "task_end_utc").getD .none,
          return_value := (alistGet? d "return_value").getD .none,
          json_data := (alistGet? d "json_data").getD .none,
          pickle_data := (alistGet? d "pickle_data").getD .none,
          template := (alistGet? d "template").getD .none }
  | _, _, _, _ => .error "TypeError: missing required TaskInfo argument"

/-- `TaskInfo.to_dict` of a freshly started record, as serialized to
JSON by `RedisRunDB.record_task_start`: all nine fields present, the
unset ones `None`. -/
def startedTaskDict (task_id task_name start_utc : String) (template : PyVal) : PyDict :=
  [("task_id", .str task_id), ("task_name", .str task_name),
   ("task_start_utc", .str start_utc), ("task_status", .str "started"),
   ("task_end_utc", .none), ("return_value", .none),
   ("json_data", .none), ("pickle_data", .none), ("template", template)]

/-! ### Redis backend (`RedisRunDB`)

The Redis key space is a map from full key strings to the stored JSON
documents (dicts).  `my_prefix = REDIS_PREFIX + ':__'` and
`task_master = my_prefix + 'task_master' + '::'` with the default
`REDIS_PREFIX = 'ox_herd:'`. -/

/-- The Redis key space owned by the run DB. -/
abbrev RedisStore := List (String × PyDict)

/-- `self.task_master`: the namespacing key for run records. -/
def taskMaster : String := "ox_herd:" ++ ":__" ++ "task_master" ++ "::"

namespace RedisRunDB

/-- `RedisRunDB.record_task_start`.  `ts` is
`datetime.utcnow().timestamp()` rendered as a string (it forms the id),
`now` is `str(datetime.utcnow())` (it is stored in the record). -/
def record_task_start (st : RedisStore) (task_name : String) (template : PyVal)
    (ts now : String) : Except String (String × RedisStore) :=
  if task_name = "" then
    .error "ValueError: must have non-empty task_name"
  else if task_name.take 2 = ":_" then
    .error "ValueError: task name cannot start with reserved prefix"
  else
    let task_id := task_name ++ "_" ++ ts
    let task_key := taskMaster ++ task_id
    if (alistGet? st task_key).isSome then
      .error "ValueError: cannot add task since already exists"
    else
      .ok (task_id, alistSet st task_key
            (startedTaskDict task_id task_name now template))

/-- `RedisRunDB.delete_task`: `conn.delete` on the namespaced key. -/
def delete_task (st : RedisStore) (task_id : String) : RedisStore :=
  alistDel st (taskMaster ++ task_id)

/-- `RedisRunDB.get_task_info`: the stored dict for an id, or `None`. -/
def get_task_info (st : RedisStore) (task_id : String) : Option PyDict :=
  alistGet? st (taskMaster ++ task_id)

/-- `RedisRunDB.get_task`: `TaskInfo(**task_info)` when the id resolves
(which raises `TypeError` when the stored dict lacks a mandatory
constructor argument), `None` otherwise. -/
def get_task (st : RedisStore) (task_id : String) : Except String (Option TaskInfo) :=
  match get_task_info st task_id with
  | some d => (taskInfoFromKwargs d).map some
  | none => .ok none

/-- The five field writes `RedisRunDB.record_task_finish` performs on
the record dict before storing it back: end time, return value,
status (the literal `'finished'`), and the two payload fields. -/
def finishUpdate (task_info : PyDict) (return_value : String)
    (json_blob pickle_blob : PyVal) (now : String) : PyDict :=
  alistSet
    (alistSet
      (alistSet
        (alistSet
          (alistSet task_info "task_end_utc" (.str now))
          "return_value" (.str return_value))
        "task_status" (.str "finished"))
      "json_data" json_blob)
    "pickle_data" pickle_blob

/-- `RedisRunDB.record_task_finish`.  When the id does not resolve the
source synthesizes `{'task_name': 'unknown', 'task_status': 'unknown'}`
and proceeds.  It raises `ValueError` when the (found or synthesized)
record already has `task_status == 'finished'`; otherwise it applies
`finishUpdate` and stores the dict back under the same key (the
`status` parameter is accepted but never stored by this backend).
`now` is `str(datetime.utcnow())`. -/
def record_task_finish (st : RedisStore) (task_id return_value status : String)
    (json_blob pickle_blob : PyVal) (now : String) : Except String RedisStore :=
  let task_info :=
    match get_task_info st task_id with
    | some info => info
    | none => [("task_name", PyVal.str "unknown"), ("task_status", PyVal.str "unknown")]
  match alistGet? task_info "task_status" with
  | none => .error "KeyError: task_status"
  | some stv =>
    if stv = PyVal.str "finished" then
      .error "ValueError: cannot record_task_finish since already ended"
    else
      let _ := status
      .ok (alistSet st (taskMaster ++ task_id)
            (finishUpdate task_info return_value json_blob pickle_blob now))

/-- One iteration of the `RedisRunDB.get_tasks` scan loop: skip the
record when a filter rejects it, fail when a filter raises.  The status
filter reads `task_status`, but the range filters read the keys
`start_utc` and `end_utc`, which no stored record contains, so a
non-`None` range bound raises `KeyError` on every record that survives
the status filter; a surviving record is rebuilt with
`TaskInfo(**item_kw)`. -/
def get_tasks_item (item_kw : PyDict) (status start_utc end_utc : Option String) :
    Except String (Option TaskInfo) :=
  match status with
  | some s =>
    match alistGet? item_kw "task_status" with
    | none => .error "KeyError: task_status"
    | some v =>
      if v = PyVal.str s then get_tasks_filtered item_kw start_utc end_utc
      else .ok Option.none
  | none => get_tasks_filtered item_kw start_utc end_utc
where
  /-- The range filters and the final `TaskInfo(**item_kw)`. -/
  get_tasks_filtered (item_kw : PyDict) (start_utc end_utc : Option String) :
      Except String (Option TaskInfo) :=
    match start_utc with
    | some lo =>
      match alistGet? item_kw "start_utc" with
      | none => .error "KeyError: start_utc"
      | some (PyVal.str v) =>
        if strLe lo v then get_tasks_tail item_kw end_utc else .ok Option.none
      | some PyVal.none => .error "TypeError: comparison with None"
    | none => get_tasks_tail item_kw end_utc
  /-- The `end_utc` filter and the final `TaskInfo(**item_kw)`. -/
  get_tasks_tail (item_kw : PyDict) (end_utc : Option String) :
      Except String (Option TaskInfo) :=
    match end_utc with
    | some hi =>
      match alistGet? item_kw "end_utc" with
      | none => .error "KeyError: end_utc"
      | some (PyVal.str v) =>
        if strLe v hi then (taskInfoFromKwargs item_kw).map some else .ok Option.none
      | some PyVal.none => .error "TypeError: comparison with None"
    | none => (taskInfoFromKwargs item_kw).map some

/-- The scan loop of `RedisRunDB.get_tasks` over the stored documents;
any raising filter aborts the whole call. -/
def get_tasks_loop (items : List PyDict) (status start_utc end_utc : Option String) :
    Except String (List TaskInfo) :=
  match items with
  | [] => .ok []
  | item_kw :: rest => do
    let r ← get_tasks_item item_kw status start_utc end_utc
    let tail ← get_tasks_loop rest status start_utc end_utc
    match r with
    | some ti => pure (ti :: tail)
    | none => pure tail

/-- `RedisRunDB.get_tasks`: scan every key under the `task_master`
namespace and filter. -/
def get_tasks (st : RedisStore) (status start_utc end_utc : Option String) :
    Except String (List TaskInfo) :=
  get_tasks_loop
    ((st.filter (fun p => strIsPrefixOf taskMaster p.1)).map Prod.snd)
    status start_utc end_utc

end RedisRunDB

/-! ### Sqlite backend (`SqliteRunDB`)

The `task_info` table is a list of rows; `task_id` is the rowid
(`INTEGER PRIMARY KEY ASC`), assigned as one more than the largest
existing rowid. -/

/-- One row of the `task_info` table. -/
structure SqlRow where
  task_id : Nat
  task_name : String
  task_start_utc : String
  task_status : String
  task_end_utc : Option String
  return_value : Option String
  json_blob : Option String
  pickle_blob : Option String
  template : Option String
  deriving DecidableEq, Repr

/-- The parameter set handed to `sqlite3` `Connection.execute`: either a
proper sequence of values or a bare scalar (which the driver rejects
with `ValueError: parameters are of unsupported type`). -/
inductive SqlParams where
  | seq (vals : List Nat)
  | scalar (val : Nat)
  deriving DecidableEq, Repr

/-- SQL `LIKE` matching (case-insensitive, `%` matches any run of
characters, `_` matches one character); `%` tries every split of the
remaining value. -/
def likeMatch : List Char → List Char → Bool
  | [], vs => vs.isEmpty
  | '%' :: ps, vs =>
    (List.range (vs.length + 1)).any (fun n => likeMatch ps (vs.drop n))
  | '_' :: ps, vs =>
    (match vs with
     | [] => false
     | _ :: vs' => likeMatch ps vs')
  | p :: ps, vs =>
    (match vs with
     | [] => false
     | v :: vs' => p.toLower = v.toLower && likeMatch ps vs')

namespace SqliteRunDB

/-- The rowid `sqlite` assigns to a fresh `INTEGER PRIMARY KEY` row:
one more than the largest rowid in the table. -/
def nextId (db : List SqlRow) : Nat :=
  (db.map (fun r => r.task_id)).foldr max 0 + 1

/-- `SqliteRunDB.record_task_start`: insert a row with name, start
time, status `'started'` and template; the other columns are `NULL`.
Returns `cursor.lastrowid`. -/
def record_task_start (db : List SqlRow) (task_name : String)
    (template : Option String) (now : String) : Nat × List SqlRow :=
  let id := nextId db
  (id, db ++ [{ task_id := id, task_name := task_name, task_start_utc := now,
                task_status := "started", task_end_utc := none,
                return_value := none, json_blob := none, pickle_blob := none,
                template := template }])

/-- The `DELETE FROM task_info WHERE task_id = ?` statement, given a
parameter set: the driver refuses a bare scalar parameter set before
touching the table. -/
def executeDelete (db : List SqlRow) (params : SqlParams) :
    Except String (List SqlRow) :=
  match params with
  | .scalar _ => .error "ValueError: parameters are of unsupported type"
  | .seq [id] => .ok (db.filter (fun r => r.task_id ≠ id))
  | .seq _ => .error "ProgrammingError: incorrect number of bindings supplied"

/-- `SqliteRunDB.delete_task`: the source calls
`self.conn.execute(sql, task_id)`, passing the bare integer id as the
parameter set instead of the one-element sequence `[task_id]`, so the
driver raises and no row is ever deleted. -/
def delete_task (db : List SqlRow) (task_id : Nat) : Except String (List SqlRow) :=
  executeDelete db (SqlParams.scalar task_id)

/-- The column list of the orphan-record `INSERT` statement in
`SqliteRunDB.record_task_finish`, split at its commas.  The last two
entries are not column names (`SET`-style assignments inside an
`INSERT` column list, with a missing comma after `task_status`), so the
statement is rejected by the SQL parser. -/
def orphanInsertColumnList : List String :=
  ["task_name", "task_start_utc", "task_id", "task_end_utc",
   "return_value", "task_status json_blob=?", "pickle_blob=?"]

/-- A string is a plain SQL column identifier: nonempty, made of
letters, digits and underscores. -/
def isSqlIdentifier (s : String) : Bool :=
  s ≠ "" && s.toList.all (fun c => c.isAlphanum || c = '_')

/-- `SqliteRunDB.record_task_finish`: run the `UPDATE ... WHERE
task_id=?`; raise if it touched more than one row; when it touched no
row, fall into the orphan-record `INSERT`, whose SQL text is malformed
(see `orphanInsertColumnList`), so that branch raises
`sqlite3.OperationalError` and stores nothing. -/
def record_task_finish (db : List SqlRow) (task_id : Nat)
    (return_value status : String) (json_blob pickle_blob : Option String)
    (now : String) : Except String (List SqlRow) :=
  let rowcount := (db.filter (fun r => r.task_id = task_id)).length
  if rowcount > 1 then
    .error "ValueError: updated multiple rows with single task_id"
  else if rowcount = 0 then
    if orphanInsertColumnList.all isSqlIdentifier then
      .ok db
    else
      .error "OperationalError: malformed INSERT near json_blob"
  else
    .ok (db.map (fun r =>
      if r.task_id = task_id then
        { r with task_end_utc := some now, return_value := some return_value,
                 task_status := status, json_blob := json_blob,
                 pickle_blob := pickle_blob }
      else r))

/-- `SqliteRunDB.get_tasks`: `SELECT * FROM task_info WHERE task_status
LIKE ?`, then `AND task_start_utc >= ?` when `start_utc` is given, and
`AND (task_end_utc IS NULL OR task_end_utc >= ?)` when `end_utc` is
given (the source compares `task_end_utc` with `>=`, not `<=`). -/
def get_tasks (db : List SqlRow) (status : String)
    (start_utc end_utc : Option String) : List SqlRow :=
  db.filter (fun r =>
    likeMatch status.toList r.task_status.toList &&
    (match start_utc with
     | none => true
     | some lo => strLe lo r.task_start_utc) &&
    (match end_utc with
     | none => true
     | some hi =>
       match r.task_end_utc with
       | none => true
       | some te => strLe hi te))

end SqliteRunDB

/-! ### Tasks (`ox_tasks.OxHerdTask`) -/

/-- The fields of an `OxHerdTask` relevant to scheduling and running.
`func` and `run_db` are carried as opaque tags; `rdb_job_id` is the run
record id inside the RunDB, `None` until `pre_call` sets it. -/
structure OxHerdTask where
  name : String
  func : String
  run_db : String
  queue_name : String
  timeout : Option Nat
  cron_string : Option String
  rdb_job_id : Option String
  deriving DecidableEq, Repr

namespace OxHerdTask

/-- `OxHerdTask.make_copy`: `copy.deepcopy` the task and append the
suffix to its name.  A deep copy duplicates every field value,
`rdb_job_id` included. -/
def make_copy (ox_herd_task : OxHerdTask) (name_suffix : String) : OxHerdTask :=
  { ox_herd_task with name := ox_herd_task.name ++ name_suffix }

/-- `OxHerdTask.get_template_name`: the default display template. -/
def get_template_name : String := "generic_ox_task_result.html"

end OxHerdTask

/-! ### Execution harness (`OxHerdTask.run_ox_task`)

The claim about the harness concerns which calls it makes on the run
database, so the database is modelled as an event log: each
`record_task_start` / `record_task_finish` call appends one event.
Record ids are generated by an abstract counter over the log. -/

/-- One recorded call on the run database. -/
inductive RdbEvent where
  | start (task_name template : String)
  | finish (task_id : Option String) (return_value : Option String)
      (status : String) (json_blob pickle_blob : Option String)
  deriving DecidableEq, Repr

/-- The id handed back by `record_task_start` in the event-log model of
the run database. -/
def freshRdbId (trace : List RdbEvent) : String :=
  "rdb_id_" ++ toString trace.length

/-- The values `main_call` can produce: a string, a dict (whose
`return_value` / `json_blob` / `pickle_blob` keys may each be absent),
or some other object. -/
inductive MainCallResult where
  | str (s : String)
  | dict (return_value json_blob pickle_blob : Option String)
  | other
  deriving DecidableEq, Repr

namespace OxHerdTask

/-- `OxHerdTask.pre_call`: assert the task has no `rdb_job_id` yet
(an `AssertionError` otherwise), call `record_task_start` with the task
name and template, and store the returned id on the task. -/
def pre_call (ox_herd_task : OxHerdTask) (trace : List RdbEvent) :
    Except String (OxHerdTask × List RdbEvent) :=
  match ox_herd_task.rdb_job_id with
  | some _ => .error "AssertionError: rdb_job_id set before pre_call"
  | none =>
    let rid := freshRdbId trace
    .ok ({ ox_herd_task with rdb_job_id := some rid },
         trace ++ [RdbEvent.start ox_herd_task.name get_template_name])

/-- `OxHerdTask.post_call`: normalize the `main_call` result into
`record_task_finish` keyword arguments and make that call.  A result
that is neither a string nor a dict raises `TypeError`; a dict without
a `return_value` key leaves `record_task_finish` without its mandatory
positional argument, which also raises `TypeError`. -/
def post_call (ox_herd_task : OxHerdTask) (trace : List RdbEvent)
    (call_result : MainCallResult) (status : String) :
    Except String (List RdbEvent) :=
  match call_result with
  | .str s =>
    .ok (trace ++ [RdbEvent.finish ox_herd_task.rdb_job_id (some s) status none none])
  | .dict rv jb pb =>
    match rv with
    | some v =>
      .ok (trace ++ [RdbEvent.finish ox_herd_task.rdb_job_id (some v) status jb pb])
    | none => .error "TypeError: record_task_finish missing return_value"
  | .other => .error "TypeError: call_result from main_call must be str or dict"

/-- `OxHerdTask.run_ox_task`: `pre_call`, then `main_call`; when
`main_call` raises, route the stringified exception through `post_call`
with status `'exception'` and re-raise it; otherwise `post_call` with
the default status.  The pair returned is the final run-database event
log together with the harness outcome (an `Except.error` is the
exception propagating to the queue worker). -/
def run_ox_task (main_call : OxHerdTask → Except String MainCallResult)
    (ox_herd_task : OxHerdTask) : List RdbEvent × Except String Unit :=
  match pre_call ox_herd_task [] with
  | .error e => ([], .error e)
  | .ok (task, trace) =>
    match main_call task with
    | .error problem =>
      match post_call task trace (MainCallResult.str problem) "exception" with
      | .error e2 => (trace, .error e2)
      | .ok trace2 => (trace2, .error problem)
    | .ok result =>
      match post_call task trace result "finished" with
      | .error e2 => (trace, .error e2)
      | .ok trace2 => (trace2, .ok ())

end OxHerdTask

/-! ### Scheduler (`scheduling.OxScheduler`)

The external job queue (python-rq plus rq-scheduler) is the collaborator
the scheduler drives.  Per the interface contract it is modelled as:
a registry of recurring jobs (`rq_scheduler`), a set of queued jobs,
and a failed/dead-letter queue.  A job carries its keyword payload
(possibly an `ox_herd_task`), its stored metadata (where the
install-recurring primitive records the cron expression), the queue it
was enqueued on (`origin`), and whether reading its payload raises
`UnpickleError`. -/

/-- A job held by the external queue backend. -/
structure Job where
  id : Nat
  kwargs_ox_herd_task : Option OxHerdTask
  meta_cron_string : Option String
  origin : String
  kwargs_unpicklable : Bool
  deriving DecidableEq, Repr

/-- The observable state of the external queue backend. -/
structure QueueState where
  scheduledJobs : List Job
  queuedJobs : List Job
  failedJobs : List Job
  counter : Nat
  deriving DecidableEq, Repr

namespace OxScheduler

/-- `OxScheduler.schedule_via_rq`: raise `ValueError` unless the task
has a truthy `cron_string`; otherwise `scheduler.cron(...)` installs a
recurring job whose kwargs carry the task and whose metadata records
the cron expression. -/
def schedule_via_rq (s : QueueState) (ox_herd_task : OxHerdTask) :
    Except String (Job × QueueState) :=
  match ox_herd_task.cron_string with
  | none => .error "ValueError: no scheduling method for rq task"
  | some c =>
    if c = "" then .error "ValueError: no scheduling method for rq task"
    else
      let job : Job :=
        { id := s.counter, kwargs_ox_herd_task := some ox_herd_task,
          meta_cron_string := some c, origin := ox_herd_task.queue_name,
          kwargs_unpicklable := false }
      .ok (job, { s with scheduledJobs := s.scheduledJobs ++ [job],
                         counter := s.counter + 1 })

/-- `OxScheduler.launch_raw_task`: build the rq keyword set from
`rq_fields`, pop `cron_string` out of it (a one-off launch is not a
recurring registration), and `queue.enqueue` the entry point with the
task as keyword payload.  `enqueue` stores no cron metadata. -/
def launch_raw_task (s : QueueState) (raw_task : OxHerdTask) :
    Job × QueueState :=
  let job : Job :=
    { id := s.counter, kwargs_ox_herd_task := some raw_task,
      meta_cron_string := none, origin := raw_task.queue_name,
      kwargs_unpicklable := false }
  (job, { s with queuedJobs := s.queuedJobs ++ [job], counter := s.counter + 1 })

/-- The per-job test of the `OxScheduler.get_scheduled_jobs` loop: skip
jobs whose payload cannot be unpickled, jobs without a truthy
`ox_herd_task` payload, and jobs whose metadata holds no truthy
`cron_string`. -/
def scheduledJobFilter (item : Job) : Bool :=
  if item.kwargs_unpicklable then false
  else
    match item.kwargs_ox_herd_task with
    | none => false
    | some _ =>
      match item.meta_cron_string with
      | none => false
      | some c => c ≠ ""

/-- `OxScheduler.get_scheduled_jobs`: enumerate the scheduler registry
and filter. -/
def get_scheduled_jobs (s : QueueState) : List Job :=
  s.scheduledJobs.filter scheduledJobFilter

/-- `OxScheduler.get_failed_jobs`: enumerate the failed queue, skipping
unpicklable payloads, and keep jobs whose kwargs hold an
`ox_herd_task`. -/
def get_failed_jobs (s : QueueState) : List Job :=
  s.failedJobs.filter (fun item =>
    if item.kwargs_unpicklable then false
    else item.kwargs_ox_herd_task.isSome)

/-- `OxScheduler.get_queued_jobs`: read the jobs of the default queue
(`rq.Queue()` with no name); when `allowed_queues` is falsy (absent or
empty) return them all, otherwise keep those whose `origin` is allowed.
No `ox_herd_task` payload filter is applied. -/
def get_queued_jobs (s : QueueState) (allowed_queues : Option (List String)) :
    List Job :=
  let all_jobs := s.queuedJobs.filter (fun j => j.origin = "default")
  match allowed_queues with
  | none => all_jobs
  | some qs =>
    if qs = [] then all_jobs
    else all_jobs.filter (fun j => qs.contains j.origin)

/-- `OxScheduler.add_to_schedule`: dispatch on the manager name via
`getattr`; `'rq'` reaches `schedule_via_rq`, `'instant'` runs the task
inline in the caller (touching no queue state), anything else raises
`AttributeError`. -/
def add_to_schedule (s : QueueState) (ox_herd_task : OxHerdTask)
    (manager : String) : Except String QueueState :=
  if manager = "rq" then (schedule_via_rq s ox_herd_task).map Prod.snd
  else if manager = "instant" then .ok s
  else .error "AttributeError: unknown manager"

/-- The loop of `OxScheduler.add_task_if_unscheduled` over the task
list; `names` is the name set harvested from the scheduled jobs before
the loop starts, and a raising `add_to_schedule` aborts the rest. -/
def addTasksLoop (names : List String) (manager : String) :
    QueueState → List OxHerdTask → Except String QueueState
  | s, [] => .ok s
  | s, task :: rest =>
    if names.contains task.name then addTasksLoop names manager s rest
    else do
      addTasksLoop names manager (← add_to_schedule s task manager) rest

/-- The task names found in the currently scheduled jobs (the keys of
`sj_dict` in `add_task_if_unscheduled`). -/
def scheduledNames (s : QueueState) : List String :=
  (get_scheduled_jobs s).filterMap
    (fun item => item.kwargs_ox_herd_task.map (fun t => t.name))

/-- `OxScheduler.add_task_if_unscheduled`: build the name map from the
currently scheduled jobs once, then `add_to_schedule` every task whose
name is not already present. -/
def add_task_if_unscheduled (s : QueueState) (task_list : List OxHerdTask)
    (manager : String) : Except String QueueState :=
  addTasksLoop (scheduledNames s) manager s task_list

/-- `OxScheduler.cancel_job`: remove the job from the scheduler
registry. -/
def cancel_job (s : QueueState) (job_id : Nat) : QueueState :=
  { s with scheduledJobs := s.scheduledJobs.filter (fun j => j.id ≠ job_id) }

/-- `OxScheduler.cleanup_job`: remove the job from the failed queue. -/
def cleanup_job (s : QueueState) (job_id : Nat) : QueueState :=
  { s with failedJobs := s.failedJobs.filter (fun j => j.id ≠ job_id) }

/-- `OxScheduler.requeue_job`: move the job from the failed queue back
onto a work queue. -/
def requeue_job (s : QueueState) (job_id : Nat) : QueueState :=
  match s.failedJobs.find? (fun j => j.id = job_id) with
  | none => s
  | some jb =>
    { s with failedJobs := s.failedJobs.filter (fun j => j.id ≠ job_id),
             queuedJobs := s.queuedJobs ++ [jb] }

end OxScheduler

/-- One observable transition of the queue backend: a scheduler
operation from `scheduling.py`, or the external queue moving a queued
job to the failed queue / dispatching a due recurring job onto its work
queue. -/
inductive QueueStep : QueueState → QueueState → Prop where
  | schedule (s : QueueState) (t : OxHerdTask) (j : Job) (s' : QueueState)
      (h : OxScheduler.schedule_via_rq s t = .ok (j, s')) : QueueStep s s'
  | launch (s : QueueState) (t : OxHerdTask) :
      QueueStep s (OxScheduler.launch_raw_task s t).2
  | cancel (s : QueueState) (job_id : Nat) :
      QueueStep s (OxScheduler.cancel_job s job_id)
  | cleanup (s : QueueState) (job_id : Nat) :
      QueueStep s (OxScheduler.cleanup_job s job_id)
  | requeue (s : QueueState) (job_id : Nat) :
      QueueStep s (OxScheduler.requeue_job s job_id)
  | fail (s : QueueState) (j : Job) (hmem : j ∈ s.queuedJobs) :
      QueueStep s { s with queuedJobs := s.queuedJobs.filter (fun k => k ≠ j),
                           failedJobs := s.failedJobs ++ [j] }
  | dispatchDue (s : QueueState) (j : Job) (hmem : j ∈ s.scheduledJobs) :
      QueueStep s { s with queuedJobs := s.queuedJobs ++ [j] }

/-- Iterated `QueueStep`. -/
inductive QueueReach : QueueState → QueueState → Prop where
  | refl (s : QueueState) : QueueReach s s
  | tail (s₁ s₂ s₃ : QueueState) (hr : QueueReach s₁ s₂)
      (hs : QueueStep s₂ s₃) : QueueReach s₁ s₃

/-! ### Association-list lemmas -/

theorem alistGet_alistSet_self {α : Type} (l : List (String × α)) (k : String)
    (v : α) : alistGet? (alistSet l k v) k = some v := by
  induction l with
  | nil => simp [alistSet, alistGet?]
  | cons p rest ih =>
    obtain ⟨k', v'⟩ := p
    by_cases h : k' = k
    · simp [alistSet, alistGet?, h]
    · simp [alistSet, alistGet?, h, ih]

theorem alistGet_alistSet_other {α : Type} (l : List (String × α)) (k k' : String)
    (v : α) (h : k' ≠ k) : alistGet? (alistSet l k v) k' = alistGet? l k' := by
  have hks : k ≠ k' := fun hh => h hh.symm
  induction l with
  | nil => simp [alistSet, alistGet?, hks]
  | cons p rest ih =>
    obtain ⟨k₀, v₀⟩ := p
    by_cases h0 : k₀ = k
    · subst h0
      simp [alistSet, alistGet?, hks]
    · simp [alistSet, alistGet?, h0, ih]

theorem alistGet_alistDel_self {α : Type} (l : List (String × α)) (k : String) :
    alistGet? (alistDel l k) k = none := by
  induction l with
  | nil => simp [alistDel, alistGet?]
  | cons p rest ih =>
    obtain ⟨k', v'⟩ := p
    by_cases h : k' = k
    · simpa [alistDel, alistGet?, h] using ih
    · simpa [alistDel, alistGet?, h] using ih

/-! ### Claim C1 : double finish -/

/-- Claim C1 counterexample.  In the SQL backend, a record already
successfully finished (status `finished`, `return_value` `"first"` from
the first call) accepts a second `record_task_finish` without raising
and its `return_value` is overwritten by the second call's value, so
the claim's "raises ... in both backends" is false. -/
theorem C1_counterexample :
    SqliteRunDB.record_task_finish
      [{ task_id := 1, task_name := "test", task_start_utc := "2020-01-01 00:00:00",
         task_status := "finished", task_end_utc := some "2020-01-01 00:01:00",
         return_value := some "first", json_blob := none, pickle_blob := none,
         template := none }]
      1 "second" "finished" none none "2020-01-01 00:02:00"
    = Except.ok
      [{ task_id := 1, task_name := "test", task_start_utc := "2020-01-01 00:00:00",
         task_status := "finished", task_end_utc := some "2020-01-01 00:02:00",
         return_value := some "second", json_blob := none, pickle_blob := none,
         template := none }] := by
  rfl

/-- Claim C1 (amended).  Only the key-value (Redis) backend rejects a
second finish: if the stored record's status is already `finished`,
`RedisRunDB.record_task_finish` raises `ValueError` and (raising before
any write) leaves the store, hence the first call's `return_value`,
unchanged.  The SQL backend runs its `UPDATE` unconditionally: whenever
exactly one row matches the id, the call succeeds and afterwards the
matching row's `return_value` is the newly supplied value. -/
theorem C1_theorem :
    (∀ (st : RedisStore) (task_id v status now : String) (jb pb : PyVal)
       (info : PyDict),
      RedisRunDB.get_task_info st task_id = some info →
      alistGet? info "task_status" = some (PyVal.str "finished") →
      RedisRunDB.record_task_finish st task_id v status jb pb now =
        Except.error "ValueError: cannot record_task_finish since already ended") ∧
    (∀ (db : List SqlRow) (row : SqlRow) (task_id : Nat) (v status now : String)
       (jb pb : Option String),
      db.filter (fun r => r.task_id = task_id) = [row] →
      ∃ db2,
        SqliteRunDB.record_task_finish db task_id v status jb pb now =
          Except.ok db2 ∧
        ∀ r ∈ db2, r.task_id = task_id → r.return_value = some v) := by
  constructor
  · intro st task_id v status now jb pb info hget hfin
    simp [RedisRunDB.record_task_finish, hget, hfin]
  · intro db row task_id v status now jb pb hfilter
    have hres : SqliteRunDB.record_task_finish db task_id v status jb pb now =
        Except.ok (db.map (fun r =>
          if r.task_id = task_id then
            { r with task_end_utc := some now, return_value := some v,
                     task_status := status, json_blob := jb,
                     pickle_blob := pb }
          else r)) := by
      simp [SqliteRunDB.record_task_finish, hfilter]
    refine ⟨_, hres, ?_⟩
    intro r hr hid
    rw [List.mem_map] at hr
    obtain ⟨a, _, rfl⟩ := hr
    by_cases hc : a.task_id = task_id
    · simp [hc]
    · simp [hc] at hid

/-- Claim C1 witness: the amended theorem applied to a one-record store
of each backend. -/
theorem C1_witness :
    RedisRunDB.record_task_finish
      [(taskMaster ++ "test_1",
        [("task_id", PyVal.str "test_1"), ("task_name", PyVal.str "test"),
         ("task_start_utc", PyVal.str "2020-01-01 00:00:00"),
         ("task_status", PyVal.str "finished"),
         ("task_end_utc", PyVal.str "2020-01-01 00:01:00"),
         ("return_value", PyVal.str "first"), ("json_data", PyVal.none),
         ("pickle_data", PyVal.none), ("template", PyVal.none)])]
      "test_1" "second" "finished" PyVal.none PyVal.none "2020-01-01 00:02:00"
    = Except.error "ValueError: cannot record_task_finish since already ended" ∧
    (∃ db2,
      SqliteRunDB.record_task_finish
        [{ task_id := 1, task_name := "test",
           task_start_utc := "2020-01-01 00:00:00", task_status := "finished",
           task_end_utc := some "2020-01-01 00:01:00",
           return_value := some "first", json_blob := none, pickle_blob := none,
           template := none }]
        1 "second" "finished" none none "2020-01-01 00:02:00" =
        Except.ok db2 ∧
      ∀ r ∈ db2, r.task_id = 1 → r.return_value = some "second") := by
  exact ⟨C1_theorem.1 _ _ _ _ _ _ _ _ (by rfl) (by rfl),
         C1_theorem.2 _ _ 1 _ _ _ _ _ (by rfl)⟩

/-! ### Claim C2 : orphan finish -/

/-- The dict `RedisRunDB.record_task_finish` stores for an id with no
started record: the synthesized `unknown` record after the finish
writes (note the insertion order the dict-update semantics produce). -/
def orphanFinishDict (return_value : String) (json_blob pickle_blob : PyVal)
    (now : String) : PyDict :=
  [("task_name", .str "unknown"), ("task_status", .str "finished"),
   ("task_end_utc", .str now), ("return_value", .str return_value),
   ("json_data", json_blob), ("pickle_data", pickle_blob)]

/-- The orphan-record `INSERT` of `SqliteRunDB.record_task_finish` is
not well-formed SQL: its column list does not consist of plain column
identifiers. -/
theorem orphanInsert_invalid :
    SqliteRunDB.orphanInsertColumnList.all SqliteRunDB.isSqlIdentifier = false := by
  decide

/-- Claim C2 evaluation.  The Redis backend behaves as claimed: an
orphan finish does not raise, and stores a retrievable record with
`task_name` `"unknown"`, status `finished` and the supplied
return value.  The SQL backend contradicts the claim: its orphan
branch executes a malformed `INSERT` statement, so the call raises and
the finish data is dropped. -/
theorem C2_theorem :
    (∀ (st : RedisStore) (task_id v status now : String) (jb pb : PyVal),
      RedisRunDB.get_task_info st task_id = none →
      RedisRunDB.record_task_finish st task_id v status jb pb now =
        Except.ok (alistSet st (taskMaster ++ task_id)
          (orphanFinishDict v jb pb now)) ∧
      RedisRunDB.get_task_info
        (alistSet st (taskMaster ++ task_id) (orphanFinishDict v jb pb now))
        task_id = some (orphanFinishDict v jb pb now) ∧
      alistGet? (orphanFinishDict v jb pb now) "task_name" =
        some (PyVal.str "unknown") ∧
      alistGet? (orphanFinishDict v jb pb now) "task_status" =
        some (PyVal.str "finished") ∧
      alistGet? (orphanFinishDict v jb pb now) "return_value" =
        some (PyVal.str v)) ∧
    (∀ (db : List SqlRow) (task_id : Nat) (v status now : String)
       (jb pb : Option String),
      db.filter (fun r => r.task_id = task_id) = [] →
      SqliteRunDB.record_task_finish db task_id v status jb pb now =
        Except.error "OperationalError: malformed INSERT near json_blob") := by
  constructor
  · intro st task_id v status now jb pb hnone
    refine ⟨?_, ?_, rfl, rfl, rfl⟩
    · simp [RedisRunDB.record_task_finish, hnone, RedisRunDB.finishUpdate,
            orphanFinishDict, alistGet?, alistSet]
    · exact alistGet_alistSet_self st (taskMaster ++ task_id) _
  · intro db task_id v status now jb pb hfilter
    simp [SqliteRunDB.record_task_finish, hfilter, orphanInsert_invalid]

/-- Claim C2 witness: the evaluation theorem applied to an empty store
of each backend. -/
theorem C2_witness :
    (RedisRunDB.record_task_finish [] "ghost_1" "v" "finished"
        PyVal.none PyVal.none "2020-01-01 00:02:00" =
      Except.ok (alistSet [] (taskMaster ++ "ghost_1")
        (orphanFinishDict "v" PyVal.none PyVal.none "2020-01-01 00:02:00")) ∧
      RedisRunDB.get_task_info
        (alistSet [] (taskMaster ++ "ghost_1")
          (orphanFinishDict "v" PyVal.none PyVal.none "2020-01-01 00:02:00"))
        "ghost_1" =
        some (orphanFinishDict "v" PyVal.none PyVal.none "2020-01-01 00:02:00") ∧
      alistGet? (orphanFinishDict "v" PyVal.none PyVal.none "2020-01-01 00:02:00")
        "task_name" = some (PyVal.str "unknown") ∧
      alistGet? (orphanFinishDict "v" PyVal.none PyVal.none "2020-01-01 00:02:00")
        "task_status" = some (PyVal.str "finished") ∧
      alistGet? (orphanFinishDict "v" PyVal.none PyVal.none "2020-01-01 00:02:00")
        "return_value" = some (PyVal.str "v")) ∧
    SqliteRunDB.record_task_finish [] 1 "v" "finished" none none
        "2020-01-01 00:02:00" =
      Except.error "OperationalError: malformed INSERT near json_blob" := by
  exact ⟨C2_theorem.1 _ _ _ _ _ _ _ (by rfl), C2_theorem.2 [] 1 _ _ _ _ _ (by rfl)⟩

/-! ### Claim C3 : range filters of get_tasks -/

/-- Claim C3 evaluation.  Neither backend implements the claimed
inclusive range filters.  The Redis backend's scan reads the keys
`start_utc` / `end_utc`, which no stored record document contains, so
any non-`None` range bound raises `KeyError` on the first record that
survives the status filter instead of filtering.  The SQL backend's
`start_utc` filter is the claimed inclusive minimum, but its `end_utc`
filter compares `task_end_utc >= ?`, so `end_utc` acts as a minimum: a
record whose end time is strictly above the bound is still returned. -/
theorem C3_theorem :
    RedisRunDB.get_tasks
      [(taskMaster ++ "test_1",
        [("task_id", PyVal.str "test_1"), ("task_name", PyVal.str "test"),
         ("task_start_utc", PyVal.str "2020-01-01 00:00:00"),
         ("task_status", PyVal.str "finished"),
         ("task_end_utc", PyVal.str "2020-01-01 01:00:00"),
         ("return_value", PyVal.str "ok"), ("json_data", PyVal.none),
         ("pickle_data", PyVal.none), ("template", PyVal.none)])]
      (some "finished") (some "2020-01-01 00:00:00") none
    = Except.error "KeyError: start_utc" ∧
    SqliteRunDB.get_tasks
      [{ task_id := 1, task_name := "a", task_start_utc := "2020-01-01 00:00:00",
         task_status := "finished", task_end_utc := some "2020-01-01 01:00:00",
         return_value := some "r1", json_blob := none, pickle_blob := none,
         template := none },
       { task_id := 2, task_name := "b", task_start_utc := "2020-01-02 00:00:00",
         task_status := "finished", task_end_utc := some "2020-01-02 01:00:00",
         return_value := some "r2", json_blob := none, pickle_blob := none,
         template := none }]
      "finished" none (some "2020-01-01 01:00:00")
    = [{ task_id := 1, task_name := "a", task_start_utc := "2020-01-01 00:00:00",
         task_status := "finished", task_end_utc := some "2020-01-01 01:00:00",
         return_value := some "r1", json_blob := none, pickle_blob := none,
         template := none },
       { task_id := 2, task_name := "b", task_start_utc := "2020-01-02 00:00:00",
         task_status := "finished", task_end_utc := some "2020-01-02 01:00:00",
         return_value := some "r2", json_blob := none, pickle_blob := none,
         template := none }] ∧
    SqliteRunDB.get_tasks
      [{ task_id := 1, task_name := "a", task_start_utc := "2020-01-01 00:00:00",
         task_status := "finished", task_end_utc := some "2020-01-01 01:00:00",
         return_value := some "r1", json_blob := none, pickle_blob := none,
         template := none },
       { task_id := 2, task_name := "b", task_start_utc := "2020-01-02 00:00:00",
         task_status := "finished", task_end_utc := some "2020-01-02 01:00:00",
         return_value := some "r2", json_blob := none, pickle_blob := none,
         template := none },
       { task_id := 3, task_name := "c", task_start_utc := "2020-01-03 00:00:00",
         task_status := "finished", task_end_utc := some "2020-01-03 01:00:00",
         return_value := some "r3", json_blob := none, pickle_blob := none,
         template := none }]
      "finished" (some "2020-01-02 00:00:00") none
    = [{ task_id := 2, task_name := "b", task_start_utc := "2020-01-02 00:00:00",
         task_status := "finished", task_end_utc := some "2020-01-02 01:00:00",
         return_value := some "r2", json_blob := none, pickle_blob := none,
         template := none },
       { task_id := 3, task_name := "c", task_start_utc := "2020-01-03 00:00:00",
         task_status := "finished", task_end_utc := some "2020-01-03 01:00:00",
         return_value := some "r3", json_blob := none, pickle_blob := none,
         template := none }] := by
  refine ⟨by rfl, by decide, by decide⟩

/-! ### Claim C4 : make_copy -/

/-- Claim C4 counterexample.  `make_copy` duplicates every field, so a
task whose `rdb_job_id` is already set yields a clone whose
`rdb_job_id` is that same id, not `None`. -/
theorem C4_counterexample :
    (OxHerdTask.make_copy
      { name := "job", func := "run_ox_task", run_db := "redis",
        queue_name := "default", timeout := none, cron_string := none,
        rdb_job_id := some "job_123" } "_copy").rdb_job_id
    = some "job_123" := by
  rfl

/-- Claim C4 (amended).  `make_copy` returns a clone whose name is the
original name with the suffix appended and whose every other field —
`rdb_job_id` included, which is carried over rather than cleared —
equals the original's; the original task itself is unchanged (the model
is pure, and the deep copy shares no state with the original). -/
theorem C4_theorem (t : OxHerdTask) (name_suffix : String) :
    (OxHerdTask.make_copy t name_suffix).name = t.name ++ name_suffix ∧
    (OxHerdTask.make_copy t name_suffix).rdb_job_id = t.rdb_job_id ∧
    (OxHerdTask.make_copy t name_suffix).func = t.func ∧
    (OxHerdTask.make_copy t name_suffix).run_db = t.run_db ∧
    (OxHerdTask.make_copy t name_suffix).queue_name = t.queue_name ∧
    (OxHerdTask.make_copy t name_suffix).timeout = t.timeout ∧
    (OxHerdTask.make_copy t name_suffix).cron_string = t.cron_string := by
  exact ⟨rfl, rfl, rfl, rfl, rfl, rfl, rfl⟩

/-! ### Claim C6 : idempotent seeding -/

/-- If a task name does not occur among the names harvested from a job
list, then no job of that list carries a task of that name. -/
theorem no_name_no_match (l : List Job) (n : String)
    (h : n ∉ l.filterMap (fun item => item.kwargs_ox_herd_task.map
      (fun t => t.name))) :
    (l.filter (fun j =>
      match j.kwargs_ox_herd_task with
      | some t => t.name = n
      | none => false)).length = 0 := by
  induction l with
  | nil => rfl
  | cons j rest ih =>
    cases hk : j.kwargs_ox_herd_task with
    | none =>
      have h2 : n ∉ rest.filterMap (fun item => item.kwargs_ox_herd_task.map
          (fun t => t.name)) := by
        simpa [List.filterMap_cons, hk] using h
      simpa [List.filter_cons, hk] using ih h2
    | some t =>
      rw [List.filterMap_cons, hk] at h
      simp only [Option.map, List.mem_cons, not_or] at h
      have hne2 : ¬ (t.name = n) := fun he => h.1 he.symm
      simpa [List.filter_cons, hk, hne2] using ih h.2

/-- Claim C6.  `add_task_if_unscheduled` is idempotent: seeding a
cron-configured task `T` whose name is not yet among the scheduled
jobs registers exactly one recurring job for `T.name`, and running the
same seeding again against the resulting backend registers nothing
more (it returns the backend unchanged). -/
theorem C6_theorem (s : QueueState) (T : OxHerdTask) (c : String)
    (hc : T.cron_string = some c) (hne : c ≠ "")
    (h0 : (OxScheduler.scheduledNames s).contains T.name = false) :
    ∃ s1,
      OxScheduler.add_task_if_unscheduled s [T] "rq" = Except.ok s1 ∧
      ((OxScheduler.get_scheduled_jobs s1).filter (fun j =>
        match j.kwargs_ox_herd_task with
        | some t => t.name = T.name
        | none => false)).length = 1 ∧
      OxScheduler.add_task_if_unscheduled s1 [T] "rq" = Except.ok s1 := by
  have hnew : OxScheduler.scheduledJobFilter
      (Job.mk s.counter (some T) (some c) T.queue_name false) = true := by
    simp [OxScheduler.scheduledJobFilter, hne]
  have h0m : T.name ∉ OxScheduler.scheduledNames s := by
    intro hm
    have he : List.elem T.name (OxScheduler.scheduledNames s) = false := h0
    rw [List.elem_eq_true_of_mem hm] at he
    exact Bool.noConfusion he
  refine ⟨QueueState.mk
      (s.scheduledJobs ++ [Job.mk s.counter (some T) (some c) T.queue_name false])
      s.queuedJobs s.failedJobs (s.counter + 1), ?_, ?_, ?_⟩
  · simp [OxScheduler.add_task_if_unscheduled, OxScheduler.addTasksLoop, h0m,
          OxScheduler.add_to_schedule, OxScheduler.schedule_via_rq, hc, hne,
          Except.map, Except.instMonad, Except.bind]
  · have h0len := no_name_no_match (OxScheduler.get_scheduled_jobs s) T.name h0m
    simp only [OxScheduler.get_scheduled_jobs] at h0len ⊢
    rw [List.filter_append, List.filter_append, List.length_append, h0len]
    simp [List.filter_cons, hnew]
  · have hmem : T.name ∈ OxScheduler.scheduledNames
        (QueueState.mk
          (s.scheduledJobs ++
            [Job.mk s.counter (some T) (some c) T.queue_name false])
          s.queuedJobs s.failedJobs (s.counter + 1)) := by
      simp [OxScheduler.scheduledNames, OxScheduler.get_scheduled_jobs,
            List.filter_append, hnew, List.filterMap_append]
    simp [OxScheduler.add_task_if_unscheduled, OxScheduler.addTasksLoop, hmem]

/-- Claim C6 witness: seeding one cron task into the empty backend
twice. -/
theorem C6_witness :
    ∃ s1,
      OxScheduler.add_task_if_unscheduled (QueueState.mk [] [] [] 0)
        [⟨"seed", "f", "redis", "default", none, some "0 5 * * *", none⟩]
        "rq" = Except.ok s1 ∧
      ((OxScheduler.get_scheduled_jobs s1).filter (fun j =>
        match j.kwargs_ox_herd_task with
        | some t => t.name = "seed"
        | none => false)).length = 1 ∧
      OxScheduler.add_task_if_unscheduled s1
        [⟨"seed", "f", "redis", "default", none, some "0 5 * * *", none⟩]
        "rq" = Except.ok s1 :=
  C6_theorem (QueueState.mk [] [] [] 0)
    ⟨"seed", "f", "redis", "default", none, some "0 5 * * *", none⟩
    "0 5 * * *" rfl (by decide) rfl

/-! ### Claim C5 : exception capture in the harness -/

/-- Claim C5.  For a task whose `main_call` raises, `run_ox_task` makes
exactly two run-database calls — the `record_task_start` from
`pre_call` and exactly one `record_task_finish`, on the id that start
call produced, with status `'exception'` and the stringified exception
as return value — and then re-raises the original exception to the
caller. -/
theorem C5_theorem (msg : String) (task : OxHerdTask)
    (mc : OxHerdTask → Except String MainCallResult)
    (hmc : ∀ t, mc t = Except.error msg)
    (hid : task.rdb_job_id = none) :
    OxHerdTask.run_ox_task mc task =
      ([RdbEvent.start task.name OxHerdTask.get_template_name,
        RdbEvent.finish (some (freshRdbId [])) (some msg) "exception" none none],
       Except.error msg) := by
  simp [OxHerdTask.run_ox_task, OxHerdTask.pre_call, OxHerdTask.post_call,
        hid, hmc]

/-- Claim C5 witness: a task whose `main_call` raises `"boom"`. -/
theorem C5_witness :
    OxHerdTask.run_ox_task (fun _ => Except.error "boom")
      { name := "t", func := "run_ox_task", run_db := "redis",
        queue_name := "default", timeout := none, cron_string := none,
        rdb_job_id := none } =
      ([RdbEvent.start "t" OxHerdTask.get_template_name,
        RdbEvent.finish (some (freshRdbId [])) (some "boom") "exception"
          none none],
       Except.error "boom") :=
  C5_theorem "boom" _ _ (fun _ => rfl) rfl

/-! ### Claim C7 : payload-marker filtering of the listings -/

/-- Claim C7 counterexample.  A foreign job on the default queue — one
carrying no `ox_herd_task` payload — is returned by `get_queued_jobs`,
which applies no payload-marker filter at all. -/
theorem C7_counterexample :
    OxScheduler.get_queued_jobs
      { scheduledJobs := [], failedJobs := [], counter := 1,
        queuedJobs := [{ id := 0, kwargs_ox_herd_task := none,
                         meta_cron_string := none, origin := "default",
                         kwargs_unpicklable := false }] }
      none
    = [{ id := 0, kwargs_ox_herd_task := none, meta_cron_string := none,
         origin := "default", kwargs_unpicklable := false }] := by
  rfl

/-- Claim C7 (amended).  `get_scheduled_jobs` and `get_failed_jobs` do
return only jobs carrying the `ox_herd_task` payload marker, but
`get_queued_jobs` performs no payload filtering: every job of the
default queue — foreign jobs included — is returned (subject only to
the optional queue-name filter). -/
theorem C7_theorem :
    (∀ (s : QueueState) (j : Job), j ∈ OxScheduler.get_scheduled_jobs s →
      j.kwargs_ox_herd_task.isSome = true) ∧
    (∀ (s : QueueState) (j : Job), j ∈ OxScheduler.get_failed_jobs s →
      j.kwargs_ox_herd_task.isSome = true) ∧
    (∀ (s : QueueState) (j : Job), j ∈ s.queuedJobs → j.origin = "default" →
      j ∈ OxScheduler.get_queued_jobs s none) := by
  refine ⟨?_, ?_, ?_⟩
  · intro s j hj
    rw [OxScheduler.get_scheduled_jobs, List.mem_filter] at hj
    have h := hj.2
    cases hk : j.kwargs_ox_herd_task with
    | none => simp [OxScheduler.scheduledJobFilter, hk, ite_self] at h
    | some t => simp [hk]
  · intro s j hj
    rw [OxScheduler.get_failed_jobs, List.mem_filter] at hj
    have h := hj.2
    by_cases hu : j.kwargs_unpicklable = true
    · simp [hu] at h
    · simpa [hu] using h
  · intro s j hj ho
    rw [OxScheduler.get_queued_jobs, List.mem_filter]
    exact ⟨hj, by simp [ho]⟩

/-- Claim C7 witness: the amended theorem applied to a concrete queue
state holding one ox-herd scheduled job, one ox-herd failed job, and
one ox-herd queued job. -/
theorem C7_witness :
    (Job.mk 1 (some ⟨"s", "f", "redis", "default", none, some "0 5 * * *", none⟩)
      (some "0 5 * * *") "default" false).kwargs_ox_herd_task.isSome = true ∧
    (Job.mk 2 (some ⟨"g", "f", "redis", "default", none, none, none⟩)
      none "default" false).kwargs_ox_herd_task.isSome = true ∧
    (Job.mk 3 (some ⟨"q", "f", "redis", "default", none, none, none⟩)
      none "default" false) ∈
      OxScheduler.get_queued_jobs
        (QueueState.mk []
          [Job.mk 3 (some ⟨"q", "f", "redis", "default", none, none, none⟩)
            none "default" false]
          [] 4)
        none := by
  refine ⟨?_, ?_, ?_⟩
  · exact C7_theorem.1
      (QueueState.mk
        [Job.mk 1 (some ⟨"s", "f", "redis", "default", none, some "0 5 * * *",
          none⟩) (some "0 5 * * *") "default" false]
        [] [] 4) _ (by decide)
  · exact C7_theorem.2.1
      (QueueState.mk [] []
        [Job.mk 2 (some ⟨"g", "f", "redis", "default", none, none, none⟩)
          none "default" false] 4) _ (by decide)
  · exact C7_theorem.2.2 _ _ (by simp) rfl

/-! ### Claim C8 : idempotent delete -/

/-- Claim C8 evaluation.  The Redis backend deletes idempotently: after
`delete_task` the id no longer resolves, whether or not it existed.
The SQL backend contradicts the claim: `delete_task` passes the bare
integer id as the SQL parameter set, so every call — even on an
existing id — raises and no row is removed. -/
theorem C8_theorem :
    (∀ (st : RedisStore) (task_id : String),
      RedisRunDB.get_task_info (RedisRunDB.delete_task st task_id) task_id =
        none) ∧
    (∀ (db : List SqlRow) (task_id : Nat),
      SqliteRunDB.delete_task db task_id =
        Except.error "ValueError: parameters are of unsupported type") := by
  constructor
  · intro st task_id
    exact alistGet_alistDel_self st (taskMaster ++ task_id)
  · intro db task_id
    rfl

/-! ### Claim C9 : frame property of the Redis finish -/

/-- The field lookups `finishUpdate` leaves untouched: any key other
than the five written ones reads as before. -/
theorem finishUpdate_frame (info : PyDict) (v now : String) (jb pb : PyVal)
    (k : String) (h1 : k ≠ "task_end_utc") (h2 : k ≠ "return_value")
    (h3 : k ≠ "task_status") (h4 : k ≠ "json_data") (h5 : k ≠ "pickle_data") :
    alistGet? (RedisRunDB.finishUpdate info v jb pb now) k = alistGet? info k := by
  unfold RedisRunDB.finishUpdate
  rw [alistGet_alistSet_other _ _ _ _ h5, alistGet_alistSet_other _ _ _ _ h4,
      alistGet_alistSet_other _ _ _ _ h3, alistGet_alistSet_other _ _ _ _ h2,
      alistGet_alistSet_other _ _ _ _ h1]

/-- The five fields `finishUpdate` writes read back as written. -/
theorem finishUpdate_written (info : PyDict) (v now : String) (jb pb : PyVal) :
    alistGet? (RedisRunDB.finishUpdate info v jb pb now) "task_status" =
      some (PyVal.str "finished") ∧
    alistGet? (RedisRunDB.finishUpdate info v jb pb now) "task_end_utc" =
      some (PyVal.str now) ∧
    alistGet? (RedisRunDB.finishUpdate info v jb pb now) "return_value" =
      some (PyVal.str v) ∧
    alistGet? (RedisRunDB.finishUpdate info v jb pb now) "json_data" = some jb ∧
    alistGet? (RedisRunDB.finishUpdate info v jb pb now) "pickle_data" =
      some pb := by
  unfold RedisRunDB.finishUpdate
  refine ⟨?_, ?_, ?_, ?_, ?_⟩
  · rw [alistGet_alistSet_other _ _ _ _ (by decide),
        alistGet_alistSet_other _ _ _ _ (by decide), alistGet_alistSet_self]
  · rw [alistGet_alistSet_other _ _ _ _ (by decide),
        alistGet_alistSet_other _ _ _ _ (by decide),
        alistGet_alistSet_other _ _ _ _ (by decide),
        alistGet_alistSet_other _ _ _ _ (by decide), alistGet_alistSet_self]
  · rw [alistGet_alistSet_other _ _ _ _ (by decide),
        alistGet_alistSet_other _ _ _ _ (by decide),
        alistGet_alistSet_other _ _ _ _ (by decide), alistGet_alistSet_self]
  · rw [alistGet_alistSet_other _ _ _ _ (by decide), alistGet_alistSet_self]
  · rw [alistGet_alistSet_self]

/-- Claim C9.  A successful Redis `record_task_finish` on an existing
started record rewrites exactly the end-time, status, return-value and
the two payload fields of that record; its `task_id`, `task_name`,
`task_start_utc` and `template` fields read back unchanged, and every
other key of the store is untouched. -/
theorem C9_theorem (st : RedisStore) (task_id v status now : String)
    (jb pb : PyVal) (info : PyDict)
    (hget : RedisRunDB.get_task_info st task_id = some info)
    (hstat : alistGet? info "task_status" = some (PyVal.str "started")) :
    ∃ st2,
      RedisRunDB.record_task_finish st task_id v status jb pb now =
        Except.ok st2 ∧
      ∃ info2,
        RedisRunDB.get_task_info st2 task_id = some info2 ∧
        alistGet? info2 "task_id" = alistGet? info "task_id" ∧
        alistGet? info2 "task_name" = alistGet? info "task_name" ∧
        alistGet? info2 "task_start_utc" = alistGet? info "task_start_utc" ∧
        alistGet? info2 "template" = alistGet? info "template" ∧
        alistGet? info2 "task_status" = some (PyVal.str "finished") ∧
        alistGet? info2 "task_end_utc" = some (PyVal.str now) ∧
        alistGet? info2 "return_value" = some (PyVal.str v) ∧
        alistGet? info2 "json_data" = some jb ∧
        alistGet? info2 "pickle_data" = some pb ∧
        (∀ k, k ≠ taskMaster ++ task_id → alistGet? st2 k = alistGet? st k) := by
  have hres : RedisRunDB.record_task_finish st task_id v status jb pb now =
      Except.ok (alistSet st (taskMaster ++ task_id)
        (RedisRunDB.finishUpdate info v jb pb now)) := by
    simp [RedisRunDB.record_task_finish, hget, hstat]
  refine ⟨_, hres, RedisRunDB.finishUpdate info v jb pb now, ?_, ?_, ?_, ?_, ?_,
          (finishUpdate_written info v now jb pb).1,
          (finishUpdate_written info v now jb pb).2.1,
          (finishUpdate_written info v now jb pb).2.2.1,
          (finishUpdate_written info v now jb pb).2.2.2.1,
          (finishUpdate_written info v now jb pb).2.2.2.2, ?_⟩
  · exact alistGet_alistSet_self st (taskMaster ++ task_id) _
  · exact finishUpdate_frame info v now jb pb "task_id"
      (by decide) (by decide) (by decide) (by decide) (by decide)
  · exact finishUpdate_frame info v now jb pb "task_name"
      (by decide) (by decide) (by decide) (by decide) (by decide)
  · exact finishUpdate_frame info v now jb pb "task_start_utc"
      (by decide) (by decide) (by decide) (by decide) (by decide)
  · exact finishUpdate_frame info v now jb pb "template"
      (by decide) (by decide) (by decide) (by decide) (by decide)
  · intro k hk
    exact alistGet_alistSet_other st (taskMaster ++ task_id) k _ hk

/-- Claim C9 witness: the frame theorem applied to a store holding one
started record. -/
theorem C9_witness :
    ∃ st2,
      RedisRunDB.record_task_finish
        [(taskMaster ++ "test_9",
          startedTaskDict "test_9" "test" "2020-01-01 00:00:00" PyVal.none)]
        "test_9" "done" "finished" PyVal.none PyVal.none "2020-01-01 00:05:00" =
        Except.ok st2 ∧
      ∃ info2,
        RedisRunDB.get_task_info st2 "test_9" = some info2 ∧
        alistGet? info2 "task_id" =
          alistGet? (startedTaskDict "test_9" "test" "2020-01-01 00:00:00"
            PyVal.none) "task_id" ∧
        alistGet? info2 "task_name" =
          alistGet? (startedTaskDict "test_9" "test" "2020-01-01 00:00:00"
            PyVal.none) "task_name" ∧
        alistGet? info2 "task_start_utc" =
          alistGet? (startedTaskDict "test_9" "test" "2020-01-01 00:00:00"
            PyVal.none) "task_start_utc" ∧
        alistGet? info2 "template" =
          alistGet? (startedTaskDict "test_9" "test" "2020-01-01 00:00:00"
            PyVal.none) "template" ∧
        alistGet? info2 "task_status" = some (PyVal.str "finished") ∧
        alistGet? info2 "task_end_utc" =
          some (PyVal.str "2020-01-01 00:05:00") ∧
        alistGet? info2 "return_value" = some (PyVal.str "done") ∧
        alistGet? info2 "json_data" = some PyVal.none ∧
        alistGet? info2 "pickle_data" = some PyVal.none ∧
        (∀ k, k ≠ taskMaster ++ "test_9" →
          alistGet? st2 k
            = alistGet? [(taskMaster ++ "test_9",
                startedTaskDict "test_9" "test" "2020-01-01 00:00:00"
                  PyVal.none)] k) :=
  C9_theorem
    [(taskMaster ++ "test_9",
      startedTaskDict "test_9" "test" "2020-01-01 00:00:00" PyVal.none)]
    "test_9" "done" "finished" "2020-01-01 00:05:00" PyVal.none PyVal.none
    (startedTaskDict "test_9" "test" "2020-01-01 00:00:00" PyVal.none)
    (by rfl) (by rfl)

/-! ### Claim C10 : one-off launches invisible to get_scheduled_jobs -/

/-- Any job returned by `get_scheduled_jobs` has a non-empty cron
expression in its stored metadata. -/
theorem scheduledJobFilter_meta (j : Job)
    (h : OxScheduler.scheduledJobFilter j = true) :
    ∃ c, j.meta_cron_string = some c ∧ c ≠ "" := by
  unfold OxScheduler.scheduledJobFilter at h
  by_cases hu : j.kwargs_unpicklable = true
  · simp [hu] at h
  · cases hk : j.kwargs_ox_herd_task with
    | none => simp [hu, hk] at h
    | some t =>
      cases hc : j.meta_cron_string with
      | none => simp [hu, hk, hc] at h
      | some c =>
        refine ⟨c, rfl, ?_⟩
        simpa [hu, hk, hc] using h

/-- Claim C10.  A job enqueued by `launch_raw_task` (which strips the
cron expression from the submission, so the enqueued job carries no
cron metadata) is never returned by `get_scheduled_jobs` — whose
results all carry a non-empty metadata cron expression — in any queue
state reachable from the launch by further scheduler operations or
queue transitions. -/
theorem C10_theorem (s0 s1 s2 : QueueState) (t : OxHerdTask) (j : Job)
    (hlaunch : OxScheduler.launch_raw_task s0 t = (j, s1))
    (_hreach : QueueReach s1 s2) :
    j ∉ OxScheduler.get_scheduled_jobs s2 := by
  intro hmem
  rw [OxScheduler.get_scheduled_jobs, List.mem_filter] at hmem
  obtain ⟨c, hc, -⟩ := scheduledJobFilter_meta j hmem.2
  have hj1 : j = (OxScheduler.launch_raw_task s0 t).1 := by rw [hlaunch]
  have hj : j.meta_cron_string = none := by
    rw [hj1]
    rfl
  rw [hj] at hc
  exact Option.noConfusion hc

/-- Claim C10 witness: a one-off launch of a cron-configured task into
the empty backend, with the listing read in the resulting state. -/
theorem C10_witness :
    (OxScheduler.launch_raw_task
      { scheduledJobs := [], queuedJobs := [], failedJobs := [], counter := 0 }
      { name := "t", func := "f", run_db := "redis", queue_name := "default",
        timeout := none, cron_string := some "0 5 * * *",
        rdb_job_id := none }).1
    ∉ OxScheduler.get_scheduled_jobs
      (OxScheduler.launch_raw_task
        { scheduledJobs := [], queuedJobs := [], failedJobs := [], counter := 0 }
        { name := "t", func := "f", run_db := "redis", queue_name := "default",
          timeout := none, cron_string := some "0 5 * * *",
          rdb_job_id := none }).2 :=
  C10_theorem _ _ _ _ _ rfl (QueueReach.refl _)

end OxHerd
